import Mathlib

/-!
Verification model of the SCHEDULER appointment-booking backend
(`backend/calendar_service.py`, `backend/conversation_graph.py`,
`backend/agent.py`, `backend/models.py`, `utils/datetime_utils.py`).

Shallow-embedding conventions, used throughout:

* Calendar dates are encoded by their day index: the number of days since
  0001-01-01 of the proleptic Gregorian calendar (so 0001-01-01 has index 0).
  With this encoding `idx % 7` is exactly Python's `date.weekday()`
  (0 = Monday, 5 = Saturday, 6 = Sunday), `idx < today` is
  `date_obj < datetime.now().date()`, and canonical zero-padded `YYYY-MM-DD`
  strings are in bijection with valid dates via `dayIndexOfDate`.
  `datetime.now()` is threaded through as an explicit `today : Nat` parameter.
* Wall-clock times `HH:MM` are encoded as minutes after midnight
  (`"09:00"` is 540, `"17:00"` is 1020).  Zero-padded `HH:MM` strings
  compare lexicographically exactly as their minute encodings compare
  numerically, and `strftime("%H:%M")`/`strptime` round-trip, so string
  comparison and equality in the Python code become `Nat` comparison here.
* The Python dict `existing_bookings` keyed by date string is encoded as a
  total function `Nat → List Booking`; `dict.get(date, [])` is plain
  application and appending is pointwise update.
* `datetime.now().timestamp()`-derived booking ids, log statements and the
  human-readable `strftime("%A, %B %d")` renderings are presentation-only
  and are not modelled (no claim depends on them).
-/

/-- One booked interval of `MockCalendarService.existing_bookings[date]`,
in minutes after midnight.  `startM`/`endM` model the `"start"`/`"end"`
keys of the stored dict; `title`/`description` model the remaining keys. -/
structure Booking where
  startM : Nat
  endM : Nat
  title : String
  description : Option String
deriving DecidableEq, Repr

/-- The calendar store: `existing_bookings` as a function from day index to
the ordered list of booked intervals for that date (missing key = `[]`). -/
def CalendarStore : Type := Nat → List Booking

/-- `models.TimeSlot`: `start_time`/`end_time` in minutes, `available` flag. -/
structure TimeSlot where
  start_time : Nat
  end_time : Nat
  available : Bool
deriving DecidableEq, Repr

/-- `models.BookingRequest` (the pydantic value object).  `title` has default
"Meeting" in the source; the optional `description` defaults to `None`. -/
structure BookingRequest where
  date : Nat
  time : Nat
  duration : Nat
  title : String
  description : Option String
deriving DecidableEq, Repr

/-- Whether `y` is a Gregorian leap year. -/
def isLeapYear (y : Nat) : Bool :=
  (y % 4 == 0 && y % 100 != 0) || y % 400 == 0

/-- Number of days in month `m` of year `y` (0 for an invalid month,
mirroring that `datetime` rejects such a month anyway). -/
def daysInMonth (y m : Nat) : Nat :=
  if m = 1 then 31
  else if m = 2 then (if isLeapYear y then 29 else 28)
  else if m = 3 then 31
  else if m = 4 then 30
  else if m = 5 then 31
  else if m = 6 then 30
  else if m = 7 then 31
  else if m = 8 then 31
  else if m = 9 then 30
  else if m = 10 then 31
  else if m = 11 then 30
  else if m = 12 then 31
  else 0

/-- Days of year `y` strictly before month `m`. -/
def daysBeforeMonth (y m : Nat) : Nat :=
  (List.range (m - 1)).foldl (fun acc i => acc + daysInMonth y (i + 1)) 0

/-- Day index of the Gregorian date `y-m-d`: days since 0001-01-01.
`dayIndexOfDate 1 1 1 = 0`, and the index mod 7 is Python's `weekday()`. -/
def dayIndexOfDate (y m d : Nat) : Nat :=
  365 * (y - 1) + (y - 1) / 4 + (y - 1) / 400 - (y - 1) / 100
    + daysBeforeMonth y m + d - 1

/-- The mock bookings seeded in `MockCalendarService.__init__`:
2025-06-27 (a Friday), 2025-06-28 (a Saturday) and 2025-06-30 (a Monday),
with their `"HH:MM"` interval endpoints converted to minutes. -/
def initial_existing_bookings : CalendarStore := fun d =>
  if d = dayIndexOfDate 2025 6 27 then
    [⟨540, 600, "Team Meeting", none⟩, ⟨840, 930, "Client Call", none⟩]
  else if d = dayIndexOfDate 2025 6 28 then
    [⟨660, 720, "Project Review", none⟩, ⟨960, 1020, "One-on-One", none⟩]
  else if d = dayIndexOfDate 2025 6 30 then
    [⟨600, 660, "Stand-up", none⟩, ⟨900, 960, "Planning", none⟩]
  else []

/-- `self.business_start` (09:00) in minutes. -/
def business_start : Nat := 540

/-- `self.business_end` (17:00) in minutes. -/
def business_end : Nat := 1020

/-- The loop body for `slotStarts`, structurally recursive on a fuel
argument so that it reduces in the kernel.  Each iteration advances
`current` by 30 (while consuming one unit of fuel), so any
`fuel ≥ stop + 1 - current` makes the fuel inexhaustible and the
function agree with the unbounded `while` loop. -/
def slotStartsAux : Nat → Nat → Nat → Nat → List Nat
  | 0, _, _, _ => []
  | fuel + 1, current, stop, dur =>
    if current + dur ≤ stop then
      current :: slotStartsAux fuel (current + 30) stop dur
    else []

/-- Candidate slot start times generated by the
`while current_time + timedelta(minutes=duration) <= end_time` loop of
`get_availability`; the loop always steps by `self.slot_duration = 30`. -/
def slotStarts (current stop dur : Nat) : List Nat :=
  slotStartsAux (stop + 1 - current) current stop dur

/-- The conflict scan of `get_availability`: a slot `[s, e)` is available
iff it overlaps no existing booking, with the half-open overlap test
`slot_start < booking_end and slot_end > booking_start`. -/
def slotAvailable (bookings : List Booking) (s e : Nat) : Bool :=
  bookings.all fun b => !(decide (s < b.endM) && decide (e > b.startM))

/-- `MockCalendarService.get_availability(date, duration)`: empty for past
dates and weekends, otherwise the generated slots that survive the
conflict filter, in generation (chronological) order.  The `except` branch
for a malformed date string is unreachable here because dates are already
day indices of well-formed dates. -/
def get_availability (store : CalendarStore) (today : Nat) (date : Nat)
    (duration : Nat) : List TimeSlot :=
  if date < today then []
  else if 5 ≤ date % 7 then []
  else
    let bookings := store date
    ((slotStarts business_start business_end duration).map fun t =>
      { start_time := t, end_time := t + duration,
        available := slotAvailable bookings t (t + duration) }).filter
      (fun slot => slot.available)

/-- Outcome of `book_appointment`: the `{"success": True, ...}` dict (the
timestamp-generated `booking_id` and confirmation message are presentation
only) or `{"success": False, "error": ...}`. -/
inductive BookResult where
  | success : BookResult
  | failure : String → BookResult
deriving DecidableEq, Repr

/-- `MockCalendarService.book_appointment`: reject past dates; re-derive
availability and reject when the requested start time is not among the
available slots; otherwise append the interval `[time, time + duration)`
to the requested date's list.  Returns the result together with the
(possibly updated) store. -/
def book_appointment (store : CalendarStore) (today : Nat)
    (booking : BookingRequest) : BookResult × CalendarStore :=
  if booking.date < today then
    (.failure "Cannot book appointments in the past", store)
  else
    let available_slots := get_availability store today booking.date booking.duration
    if (available_slots.find? fun slot => slot.start_time == booking.time).isSome then
      (.success, fun d =>
        if d = booking.date then
          store booking.date ++
            [⟨booking.time, booking.time + booking.duration,
              booking.title, booking.description⟩]
        else store d)
    else
      (.failure "The requested time slot is not available", store)

/-- One suggestion of `get_booking_suggestions`.  The human-readable
`label` keeps only the distinguishing suffix ("Morning"/"Afternoon" for
the scan branch, "at" for the preferred-date branch); the
`strftime("%A, %B %d")` date prefix is presentation only. -/
structure Suggestion where
  date : Nat
  time : Nat
  duration : Nat
  label : String
deriving DecidableEq, Repr

/-- The per-day body of the 14-day scan of `get_booking_suggestions`:
under `if available_slots:`, append the first morning slot
(`start_time < "12:00"`) and the first afternoon slot
(`"12:00" <= start_time < "17:00"`), if any. -/
def dayAppends (store : CalendarStore) (today dur check_date : Nat)
    (acc : List Suggestion) : List Suggestion :=
  let available_slots := get_availability store today check_date dur
  if available_slots.isEmpty then acc
  else
    let morning_slots := available_slots.filter fun s => decide (s.start_time < 720)
    let afternoon_slots := available_slots.filter fun s =>
      decide (720 ≤ s.start_time) && decide (s.start_time < 1020)
    let acc1 := match morning_slots with
      | s :: _ => acc ++ [⟨check_date, s.start_time, dur, "Morning"⟩]
      | [] => acc
    match afternoon_slots with
    | s :: _ => acc1 ++ [⟨check_date, s.start_time, dur, "Afternoon"⟩]
    | [] => acc1

/-- The `for i in range(1, 15)` loop of `get_booking_suggestions`, with
`fuel` counting the remaining iterations (initially 14) and `i` the current
day offset.  Weekends are skipped; after processing a business day the loop
breaks as soon as at least 5 suggestions have been collected (the length
check sits inside the weekday branch, after the day's appends). -/
def suggestAux (store : CalendarStore) (today dur : Nat) :
    Nat → Nat → List Suggestion → List Suggestion
  | 0, _, acc => acc
  | fuel + 1, i, acc =>
    let check_date := today + i
    if check_date % 7 < 5 then
      let acc1 := dayAppends store today dur check_date acc
      if 5 ≤ acc1.length then acc1
      else suggestAux store today dur fuel (i + 1) acc1
    else suggestAux store today dur fuel (i + 1) acc

/-- `MockCalendarService.get_booking_suggestions(preferred_date, _, duration)`.
With no preferred date, scan the next 14 calendar days; with one, return up
to the first 5 available slots of that date.  (The `preferred_time`
parameter is accepted and ignored by the source, so it is omitted here.) -/
def get_booking_suggestions (store : CalendarStore) (today : Nat)
    (preferred_date : Option Nat) (duration : Nat) : List Suggestion :=
  match preferred_date with
  | none => suggestAux store today duration 14 1 []
  | some pd =>
    ((get_availability store today pd duration).take 5).map fun slot =>
      ⟨pd, slot.start_time, duration, "at"⟩

example : dayIndexOfDate 1 1 1 = 0 := by decide
example : dayIndexOfDate 2025 6 30 % 7 = 0 := by decide
example : dayIndexOfDate 2025 6 28 % 7 = 5 := by decide
example : dayIndexOfDate 2025 6 27 % 7 = 4 := by decide

/-- Python's `str.lower()`, computed on the character list (the library's
`String.toLower` does not reduce in the kernel). -/
def pyLower (s : String) : String := ⟨s.toList.map Char.toLower⟩

/-- Python's `str.strip()`: drop leading and trailing whitespace. -/
def pyStrip (s : String) : String :=
  ⟨((s.toList.dropWhile Char.isWhitespace).reverse.dropWhile Char.isWhitespace).reverse⟩

/-- Whether `pat` is a prefix-at-some-position (contiguous substring) of `s`. -/
def isInfixList (pat : List Char) : List Char → Bool
  | [] => pat.isEmpty
  | c :: rest => pat.isPrefixOf (c :: rest) || isInfixList pat rest

/-- Python's substring test `pat in s` (on strings). -/
def containsStr (s pat : String) : Bool :=
  isInfixList pat.toList s.toList

/-- Take exactly `n` leading digits, or fail. -/
def takeExactDigits (cs : List Char) (n : Nat) : Option (List Char × List Char) :=
  let pre := cs.take n
  if pre.length = n && pre.all Char.isDigit then some (pre, cs.drop n) else none

/-- The separator class of the first date regex: a slash or a dash. -/
def isDateSep (c : Char) : Bool := c == '/' || c == '-'

/-- Match the `D/D/Y` date regex (`\d{1,2}`, separator, `\d{1,2}`,
separator, `\d{2,4}`) at the start of `cs` with the
first two groups taking `n1` and `n2` digits; the third group is greedy (up
to 4 digits, at least 2, nothing after it to backtrack for). -/
def matchSlashAt (cs : List Char) (n1 n2 : Nat) :
    Option (List Char × List Char × List Char) :=
  match takeExactDigits cs n1 with
  | none => none
  | some (g1, r1) =>
    match r1 with
    | [] => none
    | c :: r2 =>
      if isDateSep c then
        match takeExactDigits r2 n2 with
        | none => none
        | some (g2, r3) =>
          match r3 with
          | [] => none
          | c2 :: r4 =>
            if isDateSep c2 then
              let g3 := (r4.takeWhile Char.isDigit).take 4
              if 2 ≤ g3.length then some (g1, g2, g3) else none
            else none
      else none

/-- Match the first date regex at the start of `cs`, exploring the group
lengths in the regex engine's backtracking order (greedy: 2 before 1). -/
def matchSlashDate (cs : List Char) : Option (List Char × List Char × List Char) :=
  (matchSlashAt cs 2 2).orElse fun _ =>
  (matchSlashAt cs 2 1).orElse fun _ =>
  (matchSlashAt cs 1 2).orElse fun _ =>
  matchSlashAt cs 1 1

/-- `re.search` for the `D/D/Y` date regex: leftmost match. -/
def searchSlashDate : List Char → Option (List Char × List Char × List Char)
  | [] => none
  | c :: rest => (matchSlashDate (c :: rest)).orElse fun _ => searchSlashDate rest

/-- Match `(\d{4})-(\d{1,2})-(\d{1,2})` at the start of `cs`, the middle
group taking `n2` digits; the last group is greedy (up to 2, at least 1). -/
def matchIsoAt (cs : List Char) (n2 : Nat) :
    Option (List Char × List Char × List Char) :=
  match takeExactDigits cs 4 with
  | none => none
  | some (g1, r1) =>
    match r1 with
    | [] => none
    | c :: r2 =>
      if c == '-' then
        match takeExactDigits r2 n2 with
        | none => none
        | some (g2, r3) =>
          match r3 with
          | [] => none
          | c2 :: r4 =>
            if c2 == '-' then
              let g3 := (r4.takeWhile Char.isDigit).take 2
              if 1 ≤ g3.length then some (g1, g2, g3) else none
            else none
      else none

/-- Match the second date regex at the start of `cs` (greedy middle group). -/
def matchIsoDate (cs : List Char) : Option (List Char × List Char × List Char) :=
  (matchIsoAt cs 2).orElse fun _ => matchIsoAt cs 1

/-- `re.search` for `(\d{4})-(\d{1,2})-(\d{1,2})`: leftmost match. -/
def searchIsoDate : List Char → Option (List Char × List Char × List Char)
  | [] => none
  | c :: rest => (matchIsoDate (c :: rest)).orElse fun _ => searchIsoDate rest

/-- `int()` on a digit group. -/
def digitsToNat (cs : List Char) : Nat :=
  cs.foldl (fun acc c => acc * 10 + (c.toNat - 48)) 0

/-- The validity check performed by the `datetime(year, month, day)`
constructor (raises `ValueError` outside these bounds). -/
def validYMD (y m d : Nat) : Bool :=
  decide (1 ≤ y) && decide (y ≤ 9999) && decide (1 ≤ m) && decide (m ≤ 12) &&
  decide (1 ≤ d) && decide (d ≤ daysInMonth y m)

/-- Decode a regex match of either date pattern exactly as
`parse_relative_date` does: `parts[2]` is promoted by +2000 when it has two
digits and taken as the year, `parts[0]` as the month and `parts[1]` as the
day (the comment in the source says "Assume MM/DD format"). -/
def decodeDateGroups (g1 g2 g3 : List Char) : Option Nat :=
  let year := if g3.length = 2 then digitsToNat g3 + 2000 else digitsToNat g3
  let month := digitsToNat g1
  let day := digitsToNat g2
  if validYMD year month day then some (dayIndexOfDate year month day) else none

/-- The `for pattern in date_patterns` loop: try the `D/D/Y` shape first;
on no match or a `ValueError` (`continue`) fall through to the `Y-M-D`
shape; on its failure return `None`. -/
def tryDatePatterns (cs : List Char) : Option Nat :=
  let iso : Option Nat :=
    match searchIsoDate cs with
    | some (g1, g2, g3) => decodeDateGroups g1 g2 g3
    | none => none
  match searchSlashDate cs with
  | some (g1, g2, g3) =>
    match decodeDateGroups g1 g2 g3 with
    | some idx => some idx
    | none => iso
  | none => iso

/-- The weekday-name list of `parse_relative_date`, in source order. -/
def weekday_names : List String :=
  ["monday", "tuesday", "wednesday", "thursday", "friday", "saturday", "sunday"]

/-- `datetime_utils.parse_relative_date(text, base_date)`.  `base_date` is
the day index of `datetime.now()` (or of the explicit base).  A returned
day index stands for the `strftime("%Y-%m-%d")` rendering of that date. -/
def parse_relative_date (text : String) (base_date : Nat) : Option Nat :=
  let text := pyStrip (pyLower text)
  if containsStr text (r"today") then some base_date
  else if containsStr text (r"tomorrow") then some (base_date + 1)
  else if containsStr text (r"yesterday") then some (base_date - 1)
  else if containsStr text (r"next week") then some (base_date + (7 - base_date % 7))
  else if containsStr text (r"this week") then
    some (base_date + (if base_date % 7 = 6 then 1 else 0))
  else
    match (List.range 7).find? (fun i => containsStr text (weekday_names.getD i "")) with
    | some i =>
      let w := base_date % 7
      some (base_date + (if i ≤ w then i + 7 - w else i - w))
    | none => tryDatePatterns text.toList

/-- Match `(\d{1,2}):(\d{2})\s*([ap]m)?` at the start of `cs`, the hour
group taking `n1` digits.  Returns hour digits, minute digits, and the
optional `a`/`p` of the am/pm group. -/
def matchTime1At (cs : List Char) (n1 : Nat) :
    Option (List Char × List Char × Option Char) :=
  match takeExactDigits cs n1 with
  | none => none
  | some (g1, r1) =>
    match r1 with
    | [] => none
    | c :: r2 =>
      if c == ':' then
        match takeExactDigits r2 2 with
        | none => none
        | some (g2, r3) =>
          let r4 := r3.dropWhile Char.isWhitespace
          let ampm : Option Char :=
            match r4 with
            | a :: m :: _ => if (a == 'a' || a == 'p') && m == 'm' then some a else none
            | _ => none
          some (g1, g2, ampm)
      else none

/-- Match `(\d{1,2})\s*([ap]m)` at the start of `cs`. -/
def matchTime2At (cs : List Char) (n1 : Nat) : Option (List Char × Char) :=
  match takeExactDigits cs n1 with
  | none => none
  | some (g1, r1) =>
    let r2 := r1.dropWhile Char.isWhitespace
    match r2 with
    | a :: m :: _ => if (a == 'a' || a == 'p') && m == 'm' then some (g1, a) else none
    | _ => none

/-- Match `(\d{1,2})\.(\d{2})` at the start of `cs`. -/
def matchTime3At (cs : List Char) (n1 : Nat) : Option (List Char × List Char) :=
  match takeExactDigits cs n1 with
  | none => none
  | some (g1, r1) =>
    match r1 with
    | [] => none
    | c :: r2 =>
      if c == '.' then
        match takeExactDigits r2 2 with
        | none => none
        | some (g2, _) => some (g1, g2)
      else none

/-- Leftmost `re.search` of the first time pattern (hour greedy: 2 then 1). -/
def searchTime1 : List Char → Option (List Char × List Char × Option Char)
  | [] => none
  | c :: rest =>
    ((matchTime1At (c :: rest) 2).orElse fun _ => matchTime1At (c :: rest) 1).orElse
      fun _ => searchTime1 rest

/-- Leftmost `re.search` of the second time pattern. -/
def searchTime2 : List Char → Option (List Char × Char)
  | [] => none
  | c :: rest =>
    ((matchTime2At (c :: rest) 2).orElse fun _ => matchTime2At (c :: rest) 1).orElse
      fun _ => searchTime2 rest

/-- Leftmost `re.search` of the third time pattern. -/
def searchTime3 : List Char → Option (List Char × List Char)
  | [] => none
  | c :: rest =>
    ((matchTime3At (c :: rest) 2).orElse fun _ => matchTime3At (c :: rest) 1).orElse
      fun _ => searchTime3 rest

/-- The am/pm normalisation of `parse_time_expression`. -/
def adjustAmPm (hour : Nat) (ampm : Option Char) : Nat :=
  match ampm with
  | some c =>
    if c == 'p' && hour != 12 then hour + 12
    else if c == 'a' && hour == 12 then 0
    else hour
  | none => hour

/-- `hour`/`minute` validation plus `f"{hour:02d}:{minute:02d}"`, encoded in
minutes; an out-of-range value makes the pattern loop `continue`. -/
def validateTime (hour minute : Nat) : Option Nat :=
  if hour ≤ 23 && minute ≤ 59 then some (hour * 60 + minute) else none

/-- `datetime_utils.parse_time_expression(text)`, in minutes after
midnight.  The three regex shapes are tried in order (a match with an
invalid hour/minute falls through to the next shape), then the keyword
map in its insertion order. -/
def parse_time_expression (text : String) : Option Nat :=
  let text := pyStrip (pyLower text)
  let cs := text.toList
  let p1 : Option Nat :=
    match searchTime1 cs with
    | some (g1, g2, ampm) =>
      validateTime (adjustAmPm (digitsToNat g1) ampm) (digitsToNat g2)
    | none => none
  match p1 with
  | some t => some t
  | none =>
    let p2 : Option Nat :=
      match searchTime2 cs with
      | some (g1, a) => validateTime (adjustAmPm (digitsToNat g1) (some a)) 0
      | none => none
    match p2 with
    | some t => some t
    | none =>
      let p3 : Option Nat :=
        match searchTime3 cs with
        | some (g1, g2) => validateTime (digitsToNat g1) (digitsToNat g2)
        | none => none
      match p3 with
      | some t => some t
      | none =>
        if containsStr text (r"morning") then some 540
        else if containsStr text (r"afternoon") then some 840
        else if containsStr text (r"evening") then some 1080
        else if containsStr text (r"noon") then some 720
        else if containsStr text (r"midnight") then some 0
        else none

/-- The `"30" in message or "thirty" in message_lower` test of the
duration scan in `BookingAgent._analyze_intent` (digits are checked
against the raw message, words against the lower-cased one). -/
def mentions30 (message : String) : Bool :=
  containsStr message (r"30") || containsStr (pyLower message) (r"thirty")

/-- The `"60" in message or "hour" in message_lower` test. -/
def mentions60 (message : String) : Bool :=
  containsStr message (r"60") || containsStr (pyLower message) (r"hour")

/-- The `"15" in message or "fifteen" in message_lower` test. -/
def mentions15 (message : String) : Bool :=
  containsStr message (r"15") || containsStr (pyLower message) (r"fifteen")

/-- The duration scan of `BookingAgent._analyze_intent`: `duration = 30`
then an `if`/`elif` chain checking "30"/"thirty", "60"/"hour",
"15"/"fifteen" in that order, the first matching test winning. -/
def extract_duration (message : String) : Nat :=
  if mentions30 message then 30
  else if mentions60 message then 60
  else if mentions15 message then 15
  else 30

example : parse_relative_date "2025-06-28" 0 = none := by decide
example : parse_relative_date "tomorrow" 100 = some 101 := by decide
example : parse_relative_date "6/30/2025" 0 = some (dayIndexOfDate 2025 6 30) := by decide
example : parse_relative_date "yes" 100 = none := by decide
example : parse_time_expression "2:30pm" = some 870 := by decide
example : parse_time_expression "9am" = some 540 := by decide
example : parse_time_expression "noon" = some 720 := by decide
example : parse_time_expression "banana" = none := by decide
example : parse_time_expression "yes" = none := by decide
example : extract_duration "30 or 60 minutes" = 30 := by decide

/-- The extracted-slot dict built by `BookingAgent._analyze_intent`
(`date`, `time`, `duration`, `date_preference`, `time_preference`,
`additional_context`), and equally the accumulating
`ConversationState.extracted_info` dict (which only ever holds these
keys).  Absent key = `none`. -/
structure ExtractedInfo where
  date : Option Nat
  time : Option Nat
  duration : Option Nat
  date_preference : Option String
  time_preference : Option String
  additional_context : Option String
deriving DecidableEq, Repr

/-- The empty `extracted_info` dict a fresh conversation starts with. -/
def emptyExtractedInfo : ExtractedInfo :=
  { date := none, time := none, duration := none,
    date_preference := none, time_preference := none, additional_context := none }

/-- The result dict of `BookingAgent._analyze_intent`.  The constant
`confidence` heuristic (0.9, a float) carries no information and is not
modelled. -/
structure IntentAnalysis where
  intent : String
  extracted_info : ExtractedInfo
deriving DecidableEq, Repr

/-- `models.ConversationState`.  The `created_at`/`updated_at` timestamps
are diagnostics-only and are not modelled. -/
structure ConversationState where
  conversation_id : String
  current_node : String
  user_intent : Option String
  extracted_info : ExtractedInfo
  pending_confirmation : Option BookingRequest
  last_response : Option String
deriving DecidableEq, Repr

/-- A fresh `ConversationState(conversation_id=...)` with its pydantic
field defaults. -/
def newConversationState (conversation_id : String) : ConversationState :=
  { conversation_id := conversation_id, current_node := "start",
    user_intent := none, extracted_info := emptyExtractedInfo,
    pending_confirmation := none, last_response := none }

/-- `BookingAgent._analyze_intent(message, conversation)`: the keyword
cascade for the intent, the escalation rule, the time/date preference and
duration derivations, and the extracted-slot dict.  `today` is the day
index of `datetime.now()` used by the date parser's default base. -/
def analyze_intent (today : Nat) (message : String)
    (conversation : ConversationState) : IntentAnalysis :=
  let message_lower := pyLower message
  let parsed_date := parse_relative_date message today
  let parsed_time := parse_time_expression message
  let intent :=
    if ["book", "schedule", "meeting", "appointment", "call"].any
        (containsStr message_lower) then "book_appointment"
    else if ["available", "availability", "free", "open"].any
        (containsStr message_lower) then "check_availability"
    else if ["cancel", "reschedule", "change"].any
        (containsStr message_lower) then "reschedule"
    else if ["yes", "confirm", "ok", "sure", "works", "good", "fine", "perfect",
        "great"].any (containsStr message_lower) then
      if conversation.current_node == "confirm_booking"
          || conversation.pending_confirmation.isSome then "confirm"
      else "book_appointment"
    else if ["no", "not", "different", "another", "other"].any
        (containsStr message_lower) then "decline"
    else "general_query"
  let intent :=
    if (parsed_date.isSome || parsed_time.isSome) && intent == "general_query" then
      "book_appointment"
    else intent
  let time_preference :=
    if parsed_time.isSome then "specific"
    else if containsStr message_lower (r"morning") then "morning"
    else if containsStr message_lower (r"afternoon") then "afternoon"
    else if containsStr message_lower (r"evening") then "evening"
    else "flexible"
  let date_preference :=
    if parsed_date.isSome then "specific"
    else if ["tomorrow", "today", "monday", "tuesday", "wednesday", "thursday",
        "friday"].any (containsStr message_lower) then "relative"
    else "flexible"
  { intent := intent,
    extracted_info :=
      { date := parsed_date, time := parsed_time,
        duration := some (extract_duration message),
        date_preference := some date_preference,
        time_preference := some time_preference,
        additional_context := some ("Original message: " ++ message) } }

/-- The booking-details dict attached to a confirmed booking
(`{date, time, duration, title}`). -/
structure BookingDetails where
  date : Nat
  time : Nat
  duration : Nat
  title : String
deriving DecidableEq, Repr

/-- The dict returned by a node handler of `ConversationGraph`: response
text, next node, optional `action`, optional `booking_details`. -/
structure NodeResult where
  response : String
  next_node : String
  action : Option String
  booking_details : Option BookingDetails
deriving DecidableEq, Repr

/-- Newline separator used by the `"\n".join(...)` renderings. -/
def nl : String := "\n"

/-- `f"{hour:02d}:{minute:02d}"` for a minute-encoded time. -/
def formatTime (m : Nat) : String :=
  (if m / 60 < 10 then "0" ++ toString (m / 60) else toString (m / 60))
    ++ ":" ++ (if m % 60 < 10 then "0" ++ toString (m % 60) else toString (m % 60))

/-- Presentation-only stand-in for `strftime("%A, %B %d")` applied to a
day index (no claim inspects the rendering). -/
def formatDateLong (d : Nat) : String := toString d

/-- Presentation-only stand-in for interpolating the raw `YYYY-MM-DD` date
string into a response (no claim inspects the rendering). -/
def formatDateIso (d : Nat) : String := toString d

/-- `ConversationGraph._handle_start`. -/
def handle_start (store : CalendarStore) (_today : Nat) (conv : ConversationState)
    (_message : String) (_analysis : IntentAnalysis) :
    NodeResult × ConversationState × CalendarStore :=
  ({ response := "Hello! I\x27m your AI booking assistant. I can help you schedule appointments, check availability, and manage your calendar. What would you like to do today?",
     next_node := "intent_booking", action := none, booking_details := none },
   conv, store)

/-- `ConversationGraph._handle_show_availability`: resolve date/time from
this turn's extraction falling back to the accumulated slots, query the
calendar, and either suggest alternatives, book immediately when the
requested time is among the available slots, or list options.  The
`except` branch is unreachable in the model (its body never raises). -/
def handle_show_availability (store : CalendarStore) (today : Nat)
    (conv : ConversationState) (_message : String) (analysis : IntentAnalysis) :
    NodeResult × ConversationState × CalendarStore :=
  let extracted_info := analysis.extracted_info
  match extracted_info.date.orElse fun _ => conv.extracted_info.date with
  | none =>
    ({ response := "I need a date to check availability. What date would you like to schedule for?",
       next_node := "collect_date", action := none, booking_details := none },
     conv, store)
  | some date =>
    let time? := extracted_info.time.orElse fun _ => conv.extracted_info.time
    let duration := extracted_info.duration.getD 30
    let available_slots := get_availability store today date duration
    if available_slots.isEmpty then
      let suggestions := get_booking_suggestions store today none duration
      if suggestions.isEmpty then
        ({ response := "I don\x27t have any availability on " ++ formatDateIso date ++ ". Would you like to try a different date?",
           next_node := "collect_date", action := none, booking_details := none },
         conv, store)
      else
        let suggestion_text :=
          String.intercalate nl ((suggestions.take 3).map fun s => "• " ++ s.label)
        ({ response := "I don\x27t have any availability on " ++ formatDateIso date ++ ". Here are some alternative options:" ++ nl ++ nl ++ suggestion_text ++ nl ++ nl ++ "Would any of these work for you?",
           next_node := "intent_booking", action := none, booking_details := none },
         conv, store)
    else
      match time? with
      | some time =>
        if (available_slots.find? fun slot => slot.start_time == time).isSome then
          let booking : BookingRequest :=
            { date := date, time := time, duration := duration,
              title := "Meeting", description := none }
          let result := book_appointment store today booking
          match result.1 with
          | .success =>
            ({ response := "Perfect! I\x27ve successfully booked your appointment for " ++ formatDateLong date ++ " at " ++ formatTime time ++ " for " ++ toString duration ++ " minutes. Your booking is confirmed!",
               next_node := "booking_complete", action := some "booking_confirmed",
               booking_details := some
                 { date := date, time := time, duration := duration, title := "Meeting" } },
             conv, result.2)
          | .failure e =>
            ({ response := "I\x27m sorry, there was an issue booking that time slot. " ++ e,
               next_node := "collect_time", action := none, booking_details := none },
             conv, result.2)
        else
          let slot_text := String.intercalate nl ((available_slots.take 5).map
            fun slot => "• " ++ formatTime slot.start_time ++ " - " ++ formatTime slot.end_time)
          ({ response := "The time " ++ formatTime time ++ " isn\x27t available on " ++ formatDateIso date ++ ". Here are some available options:" ++ nl ++ nl ++ slot_text ++ nl ++ nl ++ "Which time would you prefer?",
             next_node := "collect_time", action := none, booking_details := none },
           conv, store)
      | none =>
        let slot_text := String.intercalate nl ((available_slots.take 5).map
          fun slot => "• " ++ formatTime slot.start_time ++ " - " ++ formatTime slot.end_time)
        ({ response := "Here are the available time slots for " ++ formatDateLong date ++ ":" ++ nl ++ nl ++ slot_text ++ nl ++ nl ++ "Which time would you prefer?",
           next_node := "collect_time", action := none, booking_details := none },
         conv, store)

/-- `ConversationGraph._handle_intent_booking`: prompt for the missing
slot, or delegate to the availability handler when date and time are both
known.  (The `strptime` try/except around date formatting cannot fail in
the model and is presentation only.) -/
def handle_intent_booking (store : CalendarStore) (today : Nat)
    (conv : ConversationState) (message : String) (analysis : IntentAnalysis) :
    NodeResult × ConversationState × CalendarStore :=
  let extracted_info := analysis.extracted_info
  match extracted_info.date.orElse fun _ => conv.extracted_info.date with
  | none =>
    ({ response := "I\x27d be happy to help you schedule an appointment! What date would you prefer? You can say something like \x27tomorrow\x27, \x27next Friday\x27, or give me a specific date.",
       next_node := "collect_date", action := none, booking_details := none },
     conv, store)
  | some d =>
    match extracted_info.time.orElse fun _ => conv.extracted_info.time with
    | none =>
      ({ response := "Great! I see you want to schedule something for " ++ formatDateLong d ++ ". What time would work best for you?",
         next_node := "collect_time", action := none, booking_details := none },
       conv, store)
    | some _ => handle_show_availability store today conv message analysis

/-- `ConversationGraph._handle_collect_date`.  (With day-index dates the
`strptime` failure branch is unreachable: any extracted date formats.) -/
def handle_collect_date (store : CalendarStore) (_today : Nat)
    (conv : ConversationState) (_message : String) (analysis : IntentAnalysis) :
    NodeResult × ConversationState × CalendarStore :=
  match analysis.extracted_info.date with
  | some d =>
    ({ response := "Perfect! I have " ++ formatDateLong d ++ ". What time would you prefer for your appointment?",
       next_node := "collect_time", action := none, booking_details := none },
     conv, store)
  | none =>
    ({ response := "I didn\x27t catch a specific date. Could you tell me when you\x27d like to schedule your appointment? You can say \x27tomorrow\x27, \x27next week\x27, or give me a specific date.",
       next_node := "collect_date", action := none, booking_details := none },
     conv, store)

/-- `ConversationGraph._handle_collect_time`. -/
def handle_collect_time (store : CalendarStore) (today : Nat)
    (conv : ConversationState) (message : String) (analysis : IntentAnalysis) :
    NodeResult × ConversationState × CalendarStore :=
  if analysis.extracted_info.time.isSome then
    handle_show_availability store today conv message analysis
  else
    let time_pref := pyLower (analysis.extracted_info.time_preference.getD default)
    if (["morning", "afternoon", "evening"]).contains time_pref then
      handle_show_availability store today conv message analysis
    else
      ({ response := "What time would work best for you? You can be specific like \x272:00 PM\x27 or general like \x27morning\x27 or \x27afternoon\x27.",
         next_node := "collect_time", action := none, booking_details := none },
       conv, store)

/-- `ConversationGraph._handle_confirm_booking`: affirmative words emit
`action = "confirm_booking"` towards `booking_complete`; negative words
clear the pending confirmation and return to time collection; anything
else re-asks. -/
def handle_confirm_booking (store : CalendarStore) (_today : Nat)
    (conv : ConversationState) (message : String) (_analysis : IntentAnalysis) :
    NodeResult × ConversationState × CalendarStore :=
  let user_response := pyStrip (pyLower message)
  if ["yes", "confirm", "book", "schedule", "ok", "sure", "please"].any
      (containsStr user_response) then
    ({ response := "Perfect! I\x27m booking your appointment now...",
       next_node := "booking_complete", action := some "confirm_booking",
       booking_details := none },
     conv, store)
  else if ["no", "cancel", "different", "change"].any (containsStr user_response) then
    ({ response := "No problem! Let\x27s find a different time that works better for you. What would you prefer?",
       next_node := "collect_time", action := none, booking_details := none },
     { conv with pending_confirmation := none }, store)
  else
    ({ response := "Would you like me to confirm this appointment? Just let me know \x27yes\x27 to book it or \x27no\x27 if you\x27d like to choose a different time.",
       next_node := "confirm_booking", action := none, booking_details := none },
     conv, store)

/-- `ConversationGraph._handle_booking_complete`. -/
def handle_booking_complete (store : CalendarStore) (_today : Nat)
    (conv : ConversationState) (_message : String) (_analysis : IntentAnalysis) :
    NodeResult × ConversationState × CalendarStore :=
  ({ response := "Your appointment has been successfully booked! You should receive a confirmation shortly. Is there anything else I can help you with?",
     next_node := "start", action := none, booking_details := none },
   conv, store)

/-- `ConversationGraph._handle_general_query`. -/
def handle_general_query (store : CalendarStore) (today : Nat)
    (conv : ConversationState) (message : String) (analysis : IntentAnalysis) :
    NodeResult × ConversationState × CalendarStore :=
  if analysis.intent == "check_availability" then
    handle_show_availability store today conv message analysis
  else
    ({ response := "I\x27m here to help you with appointment scheduling. I can:" ++ nl ++ nl ++ "• Book new appointments" ++ nl ++ "• Check availability" ++ nl ++ "• Find suitable time slots" ++ nl ++ nl ++ "What would you like to do?",
       next_node := "start", action := none, booking_details := none },
   conv, store)

/-- The routing block of `ConversationGraph.process_node` (lines 36-55):
from the current node, the classified intent and the truthiness of the
extracted `date`/`time`, pick the node handler to run.  The source's first
branch sends intent `book_appointment` to `intent_booking` from every
current node (its three sub-cases all assign the same target), so the
`current_node == "confirm_booking" and intent == "book_appointment"`
disjunct of the third branch is kept here exactly as written even though
the first branch shadows it. -/
def route_node (current_node intent : String) (hasDate hasTime : Bool) : String :=
  if intent == "book_appointment" then "intent_booking"
  else if intent == "check_availability" then "show_availability"
  else if intent == "confirm"
      || (current_node == "confirm_booking" && intent == "book_appointment") then
    "confirm_booking"
  else if intent == "decline" then "collect_time"
  else if hasDate || hasTime then "intent_booking"
  else "handle_query"

/-- The handler dispatch of `ConversationGraph.process_node` (lines 57-61):
run the named node's handler, defaulting to the general-query handler for
an unknown name. -/
def run_node (store : CalendarStore) (today : Nat) (conv : ConversationState)
    (message : String) (analysis : IntentAnalysis) (name : String) :
    NodeResult × ConversationState × CalendarStore :=
  if name == "start" then handle_start store today conv message analysis
  else if name == "intent_booking" then handle_intent_booking store today conv message analysis
  else if name == "collect_date" then handle_collect_date store today conv message analysis
  else if name == "collect_time" then handle_collect_time store today conv message analysis
  else if name == "show_availability" then handle_show_availability store today conv message analysis
  else if name == "confirm_booking" then handle_confirm_booking store today conv message analysis
  else if name == "booking_complete" then handle_booking_complete store today conv message analysis
  else handle_general_query store today conv message analysis

/-- `ConversationGraph.process_node`. -/
def process_node (store : CalendarStore) (today : Nat) (conv : ConversationState)
    (message : String) (analysis : IntentAnalysis) :
    NodeResult × ConversationState × CalendarStore :=
  run_node store today conv message analysis
    (route_node conv.current_node analysis.intent
      analysis.extracted_info.date.isSome analysis.extracted_info.time.isSome)

/-- The response dict `BookingAgent.process_message` returns to the caller:
the node handler's dict (`response`, `next_node`, `action`,
`booking_details`) possibly extended with `booking_confirmed`.  The caller
reads the flag with `result.get("booking_confirmed", False)`, so an absent
flag is modelled as `false`; the error dict's explicit empty
`booking_details` is modelled as `none`. -/
structure ChatResult where
  response : String
  next_node : Option String
  action : Option String
  booking_confirmed : Bool
  booking_details : Option BookingDetails
deriving DecidableEq, Repr

/-- One turn of `BookingAgent.process_message` for an existing conversation
(the body of the `try` block, lines 41-71): analyze intent, overwrite the
conversation's `user_intent` and `extracted_info` (the analysis dict always
carries every key, so `dict.update` replaces them all), run the graph,
store the next node and response, then reconcile the `confirm_booking` /
`booking_confirmed` actions. -/
def reconcile_actions (response_data : NodeResult) (conv : ConversationState)
    (store : CalendarStore) (today : Nat) :
    ChatResult × ConversationState × CalendarStore :=
  if response_data.action == some "confirm_booking" then
    match conv.pending_confirmation with
    | none =>
      ({ response := response_data.response, next_node := some response_data.next_node,
         action := response_data.action, booking_confirmed := false,
         booking_details := response_data.booking_details }, conv, store)
    | some booking =>
      let result := book_appointment store today booking
      let details : BookingDetails :=
        { date := booking.date, time := booking.time,
          duration := booking.duration, title := booking.title }
      match result.1 with
      | .success =>
        ({ response := response_data.response, next_node := some response_data.next_node,
           action := response_data.action, booking_confirmed := true,
           booking_details := some details },
         conv, result.2)
      | .failure _ =>
        ({ response := response_data.response, next_node := some response_data.next_node,
           action := response_data.action, booking_confirmed := false,
           booking_details := response_data.booking_details }, conv, result.2)
  else if response_data.action == some "booking_confirmed" then
    ({ response := response_data.response, next_node := some response_data.next_node,
       action := response_data.action, booking_confirmed := true,
       booking_details := response_data.booking_details }, conv, store)
  else
    ({ response := response_data.response, next_node := some response_data.next_node,
       action := response_data.action, booking_confirmed := false,
       booking_details := response_data.booking_details }, conv, store)

/-- One turn of `BookingAgent.process_message` for an existing conversation
(the body of the `try` block, lines 41-71): analyze intent, overwrite the
conversation's `user_intent` and `extracted_info`, run the graph, store the
next node and response, then reconcile the actions. -/
def process_turn (store : CalendarStore) (today : Nat) (conv : ConversationState)
    (message : String) : ChatResult × ConversationState × CalendarStore :=
  let intent_analysis := analyze_intent today message conv
  let conv := { conv with user_intent := some intent_analysis.intent,
                          extracted_info := intent_analysis.extracted_info }
  let step := process_node store today conv message intent_analysis
  reconcile_actions step.1
    { step.2.1 with current_node := step.1.next_node,
                    last_response := some step.1.response }
    step.2.2 today

/-- The conversation registry `BookingAgent.conversations`. -/
def Conversations : Type := String → Option ConversationState

/-- `BookingAgent.process_message(message, conversation_id)` over the
registry: look up or create the conversation, run the turn, and store the
updated conversation back. -/
def process_message (convs : Conversations) (store : CalendarStore) (today : Nat)
    (message conversation_id : String) : ChatResult × Conversations × CalendarStore :=
  let conv := (convs conversation_id).getD (newConversationState conversation_id)
  let step := process_turn store today conv message
  (step.1, fun id => if id = conversation_id then some step.2.1 else convs id, step.2.2)

/-- The generic apology dict built by the `except` clause of
`BookingAgent.process_message`. -/
def error_chat_result : ChatResult :=
  { response := "I\x27m sorry, I encountered an error while processing your request. Please try again.",
    next_node := none, action := none, booking_confirmed := false,
    booking_details := none }

/-- The `try`/`except` boundary of `BookingAgent.process_message`
(lines 34 and 73-79): the outcome of the `try` body is abstracted as an
`Except` value (a raised Python exception is not otherwise representable
in the embedding); a normal outcome passes through unchanged and any
raised exception becomes the fixed apology dict, so no exception ever
propagates to the caller and the next call proceeds as usual. -/
def process_message_caught (body : Except String ChatResult) : ChatResult :=
  match body with
  | .ok r => r
  | .error _ => error_chat_result

/-- The per-date non-overlap invariant of the calendar store (§3 / §4.2):
the intervals recorded for every single date are pairwise non-overlapping
under the half-open overlap test. -/
def storeInv (store : CalendarStore) : Prop :=
  ∀ d, (store d).Pairwise fun a b => ¬(a.startM < b.endM ∧ a.endM > b.startM)

/-- Any sequence of `book_appointment` calls, each with the `datetime.now()`
day index in force at call time. -/
def runBookings (calls : List (Nat × BookingRequest)) (store : CalendarStore) :
    CalendarStore :=
  match calls with
  | [] => store
  | c :: rest => runBookings rest (book_appointment store c.1 c.2).2

/-- Every slot returned by `get_availability` has `end = start + duration`
and passed the conflict scan against that date's booked intervals. -/
theorem mem_get_availability {store : CalendarStore} {today date dur : Nat}
    {s : TimeSlot} (hs : s ∈ get_availability store today date dur) :
    s.end_time = s.start_time + dur ∧
    slotAvailable (store date) s.start_time (s.start_time + dur) = true := by
  unfold get_availability at hs
  split at hs
  · exact absurd hs (List.not_mem_nil s)
  · split at hs
    · exact absurd hs (List.not_mem_nil s)
    · rw [List.mem_filter] at hs
      obtain ⟨hmem, hav⟩ := hs
      rw [List.mem_map] at hmem
      obtain ⟨t, -, rfl⟩ := hmem
      exact ⟨rfl, hav⟩

/-- Unpacking the conflict scan: an available slot overlaps no booking. -/
theorem slotAvailable_no_overlap {bk : List Booking} {s e : Nat}
    (h : slotAvailable bk s e = true) :
    ∀ b ∈ bk, ¬(s < b.endM ∧ e > b.startM) := by
  intro b hb
  unfold slotAvailable at h
  rw [List.all_eq_true] at h
  have hbb := h b hb
  simp only [Bool.not_eq_eq_eq_not, Bool.not_true, Bool.and_eq_false_iff,
    decide_eq_false_iff_not] at hbb
  omega

/-- A successful `book_appointment` books an interval that passed the
conflict scan, so it preserves the per-date non-overlap invariant; a
failed one leaves the store unchanged. -/
theorem book_appointment_preserves (store : CalendarStore) (today : Nat)
    (req : BookingRequest) (h : storeInv store) :
    storeInv (book_appointment store today req).2 := by
  unfold book_appointment
  split
  · exact h
  · dsimp only
    split
    · rename_i hfind
      intro d
      dsimp only
      by_cases hd : d = req.date
      · subst hd
        rw [if_pos rfl, List.pairwise_append]
        refine ⟨h _, List.pairwise_singleton _ _, ?_⟩
        intro a ha b hb
        rw [List.mem_singleton] at hb
        subst hb
        rw [Option.isSome_iff_exists] at hfind
        obtain ⟨s, hs⟩ := hfind
        have hmem := List.mem_of_find?_eq_some hs
        have hpred := List.find?_some hs
        rw [beq_iff_eq] at hpred
        obtain ⟨-, hav⟩ := mem_get_availability hmem
        rw [hpred] at hav
        have hno := slotAvailable_no_overlap hav a ha
        simp only
        omega
      · rw [if_neg hd]
        exact h d
    · exact h

/-- The three seeded mock dates each hold two disjoint intervals. -/
theorem initial_inv : storeInv initial_existing_bookings := by
  intro d
  unfold initial_existing_bookings
  split
  · decide
  · split
    · decide
    · split
      · decide
      · exact List.Pairwise.nil

/-- C1.  Calendar non-overlap invariant: starting from the engine's initial
`CalendarStore`, after any sequence of `book_appointment` calls (each made
at an arbitrary current date), the booked intervals recorded for any single
date are pairwise non-overlapping under the half-open overlap test
`slotStart < bookingEnd && slotEnd > bookingStart`; every successful
booking preserves this invariant and every failed one leaves the store
unchanged. -/
theorem calendar_nonoverlap_invariant (calls : List (Nat × BookingRequest)) :
    storeInv (runBookings calls initial_existing_bookings) := by
  have key : ∀ (cs : List (Nat × BookingRequest)) (store : CalendarStore),
      storeInv store → storeInv (runBookings cs store) := by
    intro cs
    induction cs with
    | nil => intro store h; exact h
    | cons c rest ih =>
      intro store h
      exact ih _ (book_appointment_preserves store c.1 c.2 h)
  exact key calls _ initial_inv

/-- C4.  Booking/availability round-trip: if a slot with start time `t` is
returned by `get_availability(d, m)` (with `m` a positive duration, per the
data model), then booking date `d`, time `t`, duration `m` succeeds, and a
new `get_availability(d, m)` call no longer returns a slot starting at `t`. -/
theorem booking_availability_round_trip (store : CalendarStore)
    (today d m t : Nat) (hm : 0 < m)
    (h : ∃ s ∈ get_availability store today d m, s.start_time = t) :
    (book_appointment store today ⟨d, t, m, "Meeting", none⟩).1 = BookResult.success ∧
    ∀ s ∈ get_availability
        (book_appointment store today ⟨d, t, m, "Meeting", none⟩).2 today d m,
      s.start_time ≠ t := by
  obtain ⟨s0, hs0, hst⟩ := h
  have hpast : ¬ d < today := by
    intro hlt
    rw [show get_availability store today d m = [] by
      unfold get_availability; rw [if_pos hlt]] at hs0
    exact List.not_mem_nil s0 hs0
  have hfind : ((get_availability store today d m).find?
      fun slot => slot.start_time == t).isSome = true := by
    rw [List.find?_isSome]
    exact ⟨s0, hs0, by rw [beq_iff_eq]; exact hst⟩
  have hbook : book_appointment store today ⟨d, t, m, "Meeting", none⟩ =
      (BookResult.success, fun d' =>
        if d' = d then store d ++ [⟨t, t + m, "Meeting", none⟩] else store d') := by
    unfold book_appointment
    rw [if_neg hpast, if_pos hfind]
  refine ⟨by rw [hbook], ?_⟩
  intro s hs hcontra
  rw [hbook] at hs
  obtain ⟨-, hav⟩ := mem_get_availability hs
  rw [hcontra] at hav
  simp only [if_pos rfl] at hav
  have hno := slotAvailable_no_overlap hav ⟨t, t + m, "Meeting", none⟩
    (List.mem_append_right _ (List.mem_singleton.mpr rfl))
  simp only at hno
  omega

/-- C4 witness: 10:00 is free on 2025-06-27 in the seeded store; after
booking it for 30 minutes, it is no longer offered. -/
theorem booking_availability_round_trip_witness :
    0 < 30 ∧
    (∃ s ∈ get_availability initial_existing_bookings (dayIndexOfDate 2025 6 27)
        (dayIndexOfDate 2025 6 27) 30, s.start_time = 600) ∧
    (book_appointment initial_existing_bookings (dayIndexOfDate 2025 6 27)
        ⟨dayIndexOfDate 2025 6 27, 600, 30, "Meeting", none⟩).1 = BookResult.success ∧
    ∀ s ∈ get_availability
        (book_appointment initial_existing_bookings (dayIndexOfDate 2025 6 27)
          ⟨dayIndexOfDate 2025 6 27, 600, 30, "Meeting", none⟩).2
        (dayIndexOfDate 2025 6 27) (dayIndexOfDate 2025 6 27) 30,
      s.start_time ≠ 600 :=
  ⟨by decide, by decide,
   booking_availability_round_trip initial_existing_bookings
     (dayIndexOfDate 2025 6 27) (dayIndexOfDate 2025 6 27) 30 600
     (by decide) (by decide)⟩

/-- C5.  Empty availability for past or weekend dates: for every date that
is a Saturday or Sunday (`weekday ≥ 5`) or strictly before the current
date, `get_availability` returns the empty sequence whatever the store's
booked intervals and whatever the duration. -/
theorem availability_empty_past_or_weekend (store : CalendarStore)
    (today date duration : Nat) (h : 5 ≤ date % 7 ∨ date < today) :
    get_availability store today date duration = [] := by
  unfold get_availability
  rcases h with h | h
  · by_cases hp : date < today
    · rw [if_pos hp]
    · rw [if_neg hp, if_pos h]
  · rw [if_pos h]

/-- C5 witness: 2025-06-28 is a Saturday, so availability is empty even
though the seeded store holds bookings for it. -/
theorem availability_empty_past_or_weekend_witness :
    (5 ≤ dayIndexOfDate 2025 6 28 % 7 ∨
      dayIndexOfDate 2025 6 28 < dayIndexOfDate 2025 6 27) ∧
    get_availability initial_existing_bookings (dayIndexOfDate 2025 6 27)
      (dayIndexOfDate 2025 6 28) 30 = [] :=
  ⟨Or.inl (by decide),
   availability_empty_past_or_weekend initial_existing_bookings
     (dayIndexOfDate 2025 6 27) (dayIndexOfDate 2025 6 28) 30
     (Or.inl (by decide))⟩

/-- C2 counterexample: at current node `confirm_booking` with classified
intent `book_appointment`, the routing block selects `intent_booking`, not
`confirm_booking` — the first branch (`intent == "book_appointment"`)
shadows the third branch's second disjunct. -/
theorem routing_confirm_counterexample :
    route_node (r"confirm_booking") (r"book_appointment") false false ≠ "confirm_booking" ∧
    route_node (r"confirm_booking") (r"book_appointment") false false = "intent_booking" := by
  exact ⟨by decide, by decide⟩

/-- C2 (amended).  Routing to `confirm_booking`: whenever the classified
intent is `confirm` the routing function selects the `confirm_booking`
handler; but when the current node is `confirm_booking` and the intent is
`book_appointment`, the earlier `book_appointment` branch fires and the
routing function selects `intent_booking` (the second disjunct of the
`confirm_booking` routing condition is unreachable). -/
theorem routing_confirm_amended (current : String) (hasDate hasTime : Bool) :
    route_node current (r"confirm") hasDate hasTime = "confirm_booking" ∧
    route_node (r"confirm_booking") (r"book_appointment") hasDate hasTime = "intent_booking" :=
  ⟨rfl, rfl⟩

/-- C6.  The claim says a text containing a `Y-M-D` date with valid month
and day (and matching no higher-priority pattern) parses to that date; but
`parse_relative_date` decodes the groups of the `Y-M-D` regex in `M/D/Y`
order, so for "2025-06-28" it first tries `datetime(2028, 25, 6)` (from the
`D/D/Y` regex matching "25-06-28") and then `datetime(2028, 2025, 6)`
(year from `parts[2] = "28"` promoted by +2000, month from
`parts[0] = "2025"`), both invalid, and returns `None` for every base
date. -/
theorem iso_date_regex_returns_none (base : Nat) :
    parse_relative_date (r"2025-06-28") base = none := rfl

/-- C9 counterexample: the claim says a message matching both the "30"
rule and the "60"/"hour" rule yields 60, but the scan is an `if`/`elif`
chain, so "book for 30 or 60 minutes" yields 30. -/
theorem duration_scan_counterexample :
    extract_duration (r"book for 30 or 60 minutes") ≠ 60 ∧
    extract_duration (r"book for 30 or 60 minutes") = 30 := by
  exact ⟨by decide, by decide⟩

/-- C9 (amended).  Duration derivation: the scan checks
"30"/"thirty", then "60"/"hour", then "15"/"fifteen" in that fixed order
with the FIRST matching rule winning (an `if`/`elif` chain), and defaults
to 30 when no rule matches; so a message matching both the "30" rule and
the "60" rule yields 30, and the "15" rule applies only when neither
earlier rule matched. -/
theorem duration_first_match_wins (m : String) :
    (mentions30 m = true → extract_duration m = 30) ∧
    (mentions30 m = false → mentions60 m = true → extract_duration m = 60) ∧
    (mentions30 m = false → mentions60 m = false → mentions15 m = true →
      extract_duration m = 15) ∧
    (mentions30 m = false → mentions60 m = false → mentions15 m = false →
      extract_duration m = 30) := by
  refine ⟨fun h30 => ?_, fun h30 h60 => ?_, fun h30 h60 h15 => ?_,
    fun h30 h60 h15 => ?_⟩
  · simp [extract_duration, h30]
  · simp [extract_duration, h30, h60]
  · simp [extract_duration, h30, h60, h15]
  · simp [extract_duration, h30, h60, h15]

/-- C9 witness: "an hour call" matches only the "60"/"hour" rule and gets
duration 60. -/
theorem duration_first_match_wins_witness :
    mentions30 (r"an hour call") = false ∧ mentions60 (r"an hour call") = true ∧
    extract_duration (r"an hour call") = 60 :=
  ⟨by decide, by decide,
   (duration_first_match_wins (r"an hour call")).2.1 (by decide) (by decide)⟩

/-- C7 counterexample: with an empty calendar and a Monday as the current
date, the scan appends two suggestions on each of the first three business
days and only then checks the cap, returning 6 suggestions — more than the
claimed maximum of 5. -/
theorem suggestion_cap_counterexample :
    ¬ (get_booking_suggestions (fun _ => []) 0 none 30).length ≤ 5 := by decide

/-- A day's appends add at most two suggestions (one morning, one
afternoon). -/
theorem dayAppends_length (store : CalendarStore) (today dur d : Nat)
    (acc : List Suggestion) :
    (dayAppends store today dur d acc).length ≤ acc.length + 2 := by
  unfold dayAppends
  dsimp only
  split
  · omega
  · split <;> split <;> simp [List.length_append]

/-- The scan loop keeps at most 6 suggestions when entered with at most 4:
it only continues below 5 and each day adds at most 2. -/
theorem suggestAux_length (store : CalendarStore) (today dur : Nat) :
    ∀ (fuel i : Nat) (acc : List Suggestion), acc.length ≤ 4 →
      (suggestAux store today dur fuel i acc).length ≤ 6 := by
  intro fuel
  induction fuel with
  | zero =>
    intro i acc h
    unfold suggestAux
    omega
  | succ n ih =>
    intro i acc h
    unfold suggestAux
    dsimp only
    split
    · split
      · rename_i h5
        have := dayAppends_length store today dur (today + i) acc
        omega
      · rename_i h5
        exact ih (i + 1) _ (by omega)
    · exact ih (i + 1) acc h

/-- C7 (amended).  Suggestion cap: `get_booking_suggestions` with no
preferred date returns at most 6 suggestions — the `len(suggestions) >= 5`
cutoff is checked only after a business day's (up to two) appends, so a day
contributing both a morning and an afternoon suggestion when 4 are already
collected yields 6. -/
theorem suggestion_cap_at_most_six (store : CalendarStore)
    (today duration : Nat) :
    (get_booking_suggestions store today none duration).length ≤ 6 := by
  have h := suggestAux_length store today duration 14 1 [] (by simp)
  simpa [get_booking_suggestions] using h

/-- C8.  Orchestration error containment, over the `try`/`except` boundary
of `BookingAgent.process_message`: a normal outcome of the body passes
through unchanged, every raised exception is converted to the fixed
apology response, and that response carries `booking_confirmed = false`
and empty booking details — the caller never sees a crash, and the
function returns normally so the conversation can continue on the next
turn. -/
theorem orchestration_error_containment :
    (∀ r, process_message_caught (Except.ok r) = r) ∧
    (∀ e, process_message_caught (Except.error e) = error_chat_result) ∧
    error_chat_result.booking_confirmed = false ∧
    error_chat_result.booking_details = none :=
  ⟨fun _ => rfl, fun _ => rfl, rfl, rfl⟩

/-- `_handle_show_availability` never modifies the conversation record. -/
theorem handle_show_availability_conv (store : CalendarStore) (today : Nat)
    (conv : ConversationState) (message : String) (analysis : IntentAnalysis) :
    (handle_show_availability store today conv message analysis).2.1 = conv := by
  unfold handle_show_availability
  dsimp only
  repeat' split
  all_goals rfl

/-- `_handle_intent_booking` never modifies the conversation record. -/
theorem handle_intent_booking_conv (store : CalendarStore) (today : Nat)
    (conv : ConversationState) (message : String) (analysis : IntentAnalysis) :
    (handle_intent_booking store today conv message analysis).2.1 = conv := by
  unfold handle_intent_booking
  dsimp only
  split
  · rfl
  · split
    · rfl
    · exact handle_show_availability_conv store today conv message analysis

/-- `_handle_collect_date` never modifies the conversation record. -/
theorem handle_collect_date_conv (store : CalendarStore) (today : Nat)
    (conv : ConversationState) (message : String) (analysis : IntentAnalysis) :
    (handle_collect_date store today conv message analysis).2.1 = conv := by
  unfold handle_collect_date
  split <;> rfl

/-- `_handle_collect_time` never modifies the conversation record. -/
theorem handle_collect_time_conv (store : CalendarStore) (today : Nat)
    (conv : ConversationState) (message : String) (analysis : IntentAnalysis) :
    (handle_collect_time store today conv message analysis).2.1 = conv := by
  unfold handle_collect_time
  dsimp only
  split
  · exact handle_show_availability_conv store today conv message analysis
  · split
    · exact handle_show_availability_conv store today conv message analysis
    · rfl

/-- `_handle_general_query` never modifies the conversation record. -/
theorem handle_general_query_conv (store : CalendarStore) (today : Nat)
    (conv : ConversationState) (message : String) (analysis : IntentAnalysis) :
    (handle_general_query store today conv message analysis).2.1 = conv := by
  unfold handle_general_query
  split
  · exact handle_show_availability_conv store today conv message analysis
  · rfl

/-- `_handle_confirm_booking` either leaves `pending_confirmation` alone or
sets it to `None` (the decline branch) — it never stores a booking. -/
theorem handle_confirm_booking_pending (store : CalendarStore) (today : Nat)
    (conv : ConversationState) (message : String) (analysis : IntentAnalysis) :
    (handle_confirm_booking store today conv message analysis).2.1.pending_confirmation
      = conv.pending_confirmation ∨
    (handle_confirm_booking store today conv message analysis).2.1.pending_confirmation
      = none := by
  unfold handle_confirm_booking
  dsimp only
  split
  · exact Or.inl rfl
  · split
    · exact Or.inr rfl
    · exact Or.inl rfl

/-- No node handler ever stores a booking in `pending_confirmation`: after
`process_node` it is either unchanged or `None`. -/
theorem process_node_pending (store : CalendarStore) (today : Nat)
    (conv : ConversationState) (message : String) (analysis : IntentAnalysis) :
    (process_node store today conv message analysis).2.1.pending_confirmation
      = conv.pending_confirmation ∨
    (process_node store today conv message analysis).2.1.pending_confirmation
      = none := by
  unfold process_node run_node
  split
  · exact Or.inl rfl
  · split
    · exact Or.inl (by rw [handle_intent_booking_conv])
    · split
      · exact Or.inl (by rw [handle_collect_date_conv])
      · split
        · exact Or.inl (by rw [handle_collect_time_conv])
        · split
          · exact Or.inl (by rw [handle_show_availability_conv])
          · split
            · exact handle_confirm_booking_pending store today conv message analysis
            · split
              · exact Or.inl rfl
              · exact Or.inl (by rw [handle_general_query_conv])

/-- The action-reconciliation block returns the conversation unchanged. -/
theorem reconcile_actions_conv (r : NodeResult) (c : ConversationState)
    (s : CalendarStore) (t : Nat) :
    (reconcile_actions r c s t).2.1 = c := by
  unfold reconcile_actions
  dsimp only
  repeat' split
  all_goals rfl

/-- With no pending booking, the reconciliation block keeps the handler's
action and, on action `confirm_booking`, reports `booking_confirmed =
false` (the commit step finds nothing to commit and fails). -/
theorem reconcile_actions_flag (r : NodeResult) (c : ConversationState)
    (s : CalendarStore) (t : Nat) (hc : c.pending_confirmation = none) :
    (reconcile_actions r c s t).1.action = r.action ∧
    ((reconcile_actions r c s t).1.action = some "confirm_booking" →
      (reconcile_actions r c s t).1.booking_confirmed = false) := by
  unfold reconcile_actions
  dsimp only
  split
  · rw [hc]
    exact ⟨rfl, fun _ => rfl⟩
  · rename_i hact
    split
    · refine ⟨rfl, fun habs => absurd (beq_iff_eq.mpr habs) ?_⟩
      simpa using hact
    · exact ⟨rfl, fun _ => rfl⟩

/-- `process_turn` preserves the absence of a pending booking. -/
theorem process_turn_pending (store : CalendarStore) (today : Nat)
    (conv : ConversationState) (message : String)
    (h : conv.pending_confirmation = none) :
    (process_turn store today conv message).2.1.pending_confirmation = none := by
  unfold process_turn
  dsimp only
  rw [reconcile_actions_conv]
  exact (process_node_pending store today _ message _).elim
    (fun h2 => h2.trans h) (fun h2 => h2)

/-- C10.  In every reachable `ConversationState`, `pending_confirmation` is
`None`: it is initialized to `None`, `process_turn` (the only operation
that touches conversations) preserves that, and whenever the state machine
emits action `confirm_booking` the commit step finds no pending booking
and the turn's result cannot have `booking_confirmed = true` via that
path. -/
theorem pending_confirmation_always_none :
    (∀ cid, (newConversationState cid).pending_confirmation = none) ∧
    (∀ (store : CalendarStore) (today : Nat) (conv : ConversationState)
        (message : String),
      conv.pending_confirmation = none →
      (process_turn store today conv message).2.1.pending_confirmation = none) ∧
    (∀ (store : CalendarStore) (today : Nat) (conv : ConversationState)
        (message : String),
      conv.pending_confirmation = none →
      (process_turn store today conv message).1.action = some "confirm_booking" →
      (process_turn store today conv message).1.booking_confirmed = false) := by
  refine ⟨fun _ => rfl, process_turn_pending, ?_⟩
  intro store today conv message h
  unfold process_turn
  dsimp only
  refine (reconcile_actions_flag _ _ _ _ ?_).2
  exact (process_node_pending store today _ message _).elim
    (fun h2 => h2.trans h) (fun h2 => h2)

/-- C10 witness: a fresh conversation has no pending booking, and one turn
keeps it that way. -/
theorem pending_confirmation_always_none_witness :
    (newConversationState (r"c1")).pending_confirmation = none ∧
    (process_turn initial_existing_bookings 0 (newConversationState (r"c1"))
      (r"hello")).2.1.pending_confirmation = none :=
  ⟨pending_confirmation_always_none.1 (r"c1"),
   pending_confirmation_always_none.2.1 initial_existing_bookings 0
     (newConversationState (r"c1")) (r"hello") rfl⟩

/-- C3.  Confirm-once scenario, as the code actually behaves: at node
`confirm_booking` the message "yes" classifies as intent `confirm`, routes
to the confirm handler, and the turn moves to next node `booking_complete`
with action `confirm_booking` — but the orchestration commit step finds
`pending_confirmation = None` (nothing ever sets it), `_confirm_booking`
fails, `booking_confirmed` stays `false` and the calendar is left
untouched: the pending booking is committed ZERO times, not once.
Repeating "yes" in a later turn at node `start` classifies as
`book_appointment`, lands in `intent_booking` with no extracted date (the
turn's analysis overwrote the slots), and also leaves the calendar
untouched — so no second commit ever happens either. -/
theorem confirm_yes_commits_nothing (store : CalendarStore) (today : Nat)
    (conv : ConversationState)
    (hnode : conv.current_node = "confirm_booking")
    (hpend : conv.pending_confirmation = none) :
    ((process_turn store today conv (r"yes")).1.next_node = some "booking_complete" ∧
     (process_turn store today conv (r"yes")).1.action = some "confirm_booking" ∧
     (process_turn store today conv (r"yes")).1.booking_confirmed = false ∧
     (process_turn store today conv (r"yes")).2.2 = store ∧
     (process_turn store today conv (r"yes")).2.1.current_node = "booking_complete") ∧
    (∀ (store2 : CalendarStore) (today2 : Nat) (conv2 : ConversationState),
      conv2.current_node = "start" → conv2.pending_confirmation = none →
      (process_turn store2 today2 conv2 (r"yes")).1.booking_confirmed = false ∧
      (process_turn store2 today2 conv2 (r"yes")).2.2 = store2) := by
  obtain ⟨cid, node, ui, ei, pend, lr⟩ := conv
  simp only at hnode hpend
  subst hnode
  subst hpend
  refine ⟨⟨rfl, rfl, rfl, rfl, rfl⟩, ?_⟩
  intro store2 today2 conv2 h2n h2p
  obtain ⟨cid2, node2, ui2, ei2, pend2, lr2⟩ := conv2
  simp only at h2n h2p
  subst h2n
  subst h2p
  exact ⟨rfl, rfl⟩

/-- C3 witness: a concrete conversation at `confirm_booking` answering
"yes" emits the confirm action, reports no confirmed booking, and writes
nothing to the seeded calendar. -/
theorem confirm_yes_commits_nothing_witness :
    (process_turn initial_existing_bookings (dayIndexOfDate 2025 6 27)
        { conversation_id := "c1", current_node := "confirm_booking",
          user_intent := none, extracted_info := emptyExtractedInfo,
          pending_confirmation := none, last_response := none }
        (r"yes")).1.action = some "confirm_booking" ∧
    (process_turn initial_existing_bookings (dayIndexOfDate 2025 6 27)
        { conversation_id := "c1", current_node := "confirm_booking",
          user_intent := none, extracted_info := emptyExtractedInfo,
          pending_confirmation := none, last_response := none }
        (r"yes")).2.2 = initial_existing_bookings :=
  ⟨((confirm_yes_commits_nothing initial_existing_bookings
      (dayIndexOfDate 2025 6 27) _ rfl rfl).1).2.1,
   ((confirm_yes_commits_nothing initial_existing_bookings
      (dayIndexOfDate 2025 6 27) _ rfl rfl).1).2.2.2.1⟩
